import Mathlib

/-!
Verification of the LegiTrack BR data-access and normalization layer
(`services/camara.py` and `utils/transforms.py`) against its specification.

The Python code is shallowly embedded: JSON/Python values become the
inductive type `PyVal`, dictionaries become association lists, network
fetches become explicit parameters, and functions that can raise return
`Except`.  Python's stable `list.sort` is modelled with `List.mergeSort`
(which Lean proves stable).  String operations (`lower`, `upper`, `strip`,
substring `in`) are modelled character-wise at ASCII fidelity, which covers
every value these claims quantify over.
-/

/-- A Python/JSON value as it appears in the payloads this code handles:
`None`, integers, strings, lists, dictionaries with string keys, plus
`pandas.Timestamp` objects (which `df_proposicoes` stores in its rows). -/
inductive PyVal where
  | none
  | int (n : Int)
  | str (s : String)
  | list (xs : List PyVal)
  | dict (kv : List (String × PyVal))
  | ts (year : Nat) (month : Nat) (day : Nat) (hour : Nat) (minute : Nat)
      (second : Nat) (tzOffsetMinutes : Option Int)

/-- A raw record (a Python `dict` from the API), as an association list. -/
abbrev Registro := List (String × PyVal)

/-- Python truthiness: `None`, `0`, `""`, `[]` and `` empty dict `` are falsy. -/
def truthy : PyVal → Bool
  | .none => false
  | .int n => n != 0
  | .str s => !s.isEmpty
  | .list xs => !xs.isEmpty
  | .dict kv => !kv.isEmpty
  | .ts _ _ _ _ _ _ _ => true

/-- Python `a or b`: returns `a` when truthy, else `b`. -/
def pyOr (a b : PyVal) : PyVal := if truthy a then a else b

/-- Python `d.get(k)` (default `None`). -/
def pyGet (p : Registro) (k : String) : PyVal := (p.lookup k).getD PyVal.none

/-- Python `d.get(k, dflt)`. -/
def pyGetD (p : Registro) (k : String) (dflt : PyVal) : PyVal :=
  (p.lookup k).getD dflt

/-- The single-quote character used by Python `repr` of strings. -/
def pyQuote : String := String.mk [Char.ofNat 39]

mutual

/-- Python `repr(v)` (string fidelity: keys and strings are single-quoted;
escaping inside strings is not modelled, no claim depends on it). -/
def pyRepr : PyVal → String
  | .none => "None"
  | .int n => toString n
  | .str s => pyQuote ++ s ++ pyQuote
  | .list xs => "[" ++ pyReprList xs ++ "]"
  | .dict kv => "\x7b" ++ pyReprDict kv ++ "\x7d"
  | .ts y m d _ _ _ _ =>
      "Timestamp(" ++ toString y ++ "-" ++ toString m ++ "-" ++ toString d ++ ")"

/-- Comma-joined `repr`s of list elements. -/
def pyReprList : List PyVal → String
  | [] => ""
  | [x] => pyRepr x
  | x :: xs => pyRepr x ++ ", " ++ pyReprList xs

/-- Comma-joined `'key': repr` pairs of dict entries. -/
def pyReprDict : List (String × PyVal) → String
  | [] => ""
  | [(k, v)] => pyQuote ++ k ++ pyQuote ++ ": " ++ pyRepr v
  | (k, v) :: xs => pyQuote ++ k ++ pyQuote ++ ": " ++ pyRepr v ++ ", " ++ pyReprDict xs

end

/-- Python `str(v)`: the string itself for strings, `repr` otherwise. -/
def pyStr : PyVal → String
  | .str s => s
  | v => pyRepr v

/-- Python `s.lower()` (ASCII fidelity). -/
def pyLower (s : String) : String := String.mk (s.toList.map Char.toLower)

/-- Python `s.upper()` (ASCII fidelity). -/
def pyUpper (s : String) : String := String.mk (s.toList.map Char.toUpper)

/-- Whitespace as stripped by Python `str.strip()` (ASCII fidelity). -/
def pyIsSpace (c : Char) : Bool :=
  c == ' ' || c == '\t' || c == '\n' || c == '\r' ||
  c == Char.ofNat 11 || c == Char.ofNat 12

/-- Python `s.strip()`. -/
def pyStrip (s : String) : String :=
  String.mk (((s.toList.dropWhile pyIsSpace).reverse.dropWhile pyIsSpace).reverse)

/-- Python substring test `needle in hay`. -/
def strIn (needle hay : String) : Bool := decide (needle.toList <:+: hay.toList)

/-- Python `int(str)`: optional surrounding whitespace, optional sign, then
decimal digits (`none` models the `ValueError`).  ASCII fidelity; digit-group
underscores are not modelled. -/
def pyIntOfStr (s : String) : Option Int :=
  let cs := (pyStrip s).toList
  let core : List Char → Option Int := fun ds =>
    if ds ≠ [] ∧ ds.all Char.isDigit then
      some (Int.ofNat (ds.foldl (fun acc c => acc * 10 + (c.toNat - 48)) 0))
    else Option.none
  match cs with
  | '-' :: rest => (core rest).map (fun n => -n)
  | '+' :: rest => core rest
  | rest => core rest

/-- Python `int(v)`: `none` models the `TypeError`/`ValueError` raise. -/
def pyInt : PyVal → Option Int
  | .int n => some n
  | .str s => pyIntOfStr s
  | _ => Option.none

/-- A parsed timestamp (the model of `pandas.Timestamp` values produced by
`parse_date`). -/
structure Timestamp where
  year : Nat
  month : Nat
  day : Nat
  hour : Nat
  minute : Nat
  second : Nat
  tzOffsetMinutes : Option Int
deriving DecidableEq, Repr

/-- Leap year (proleptic Gregorian). -/
def isLeap (y : Nat) : Bool := (y % 4 == 0 && y % 100 != 0) || y % 400 == 0

/-- Days in a month. -/
def daysInMonth (y m : Nat) : Nat :=
  if m == 2 then (if isLeap y then 29 else 28)
  else if m == 4 || m == 6 || m == 9 || m == 11 then 30
  else 31

/-- A calendar date representable by Python `datetime` (year 1..9999). -/
def validYMD (y m d : Nat) : Bool :=
  1 ≤ y && y ≤ 9999 && 1 ≤ m && m ≤ 12 && 1 ≤ d && d ≤ daysInMonth y m

/-- Decimal digit value of a character, if it is one. -/
def digitVal (c : Char) : Option Nat :=
  if 48 ≤ c.toNat ∧ c.toNat ≤ 57 then some (c.toNat - 48) else Option.none

/-- Read two digits. -/
def take2 : List Char → Option (Nat × List Char)
  | a :: b :: rest =>
    match digitVal a, digitVal b with
    | some x, some y => some (x * 10 + y, rest)
    | _, _ => Option.none
  | _ => Option.none

/-- Read four digits. -/
def take4 : List Char → Option (Nat × List Char)
  | a :: b :: c :: d :: rest =>
    match digitVal a, digitVal b, digitVal c, digitVal d with
    | some x, some y, some z, some w => some (x * 1000 + y * 100 + z * 10 + w, rest)
    | _, _, _, _ => Option.none
  | _ => Option.none

/-- Consume one expected character. -/
def expectChar (c : Char) : List Char → Option (List Char)
  | x :: rest => if x = c then some rest else Option.none
  | _ => Option.none

/-- Parse `HH:MM:SS` followed by an optional zone suffix (nothing, `Z`, or
`+HH:MM`/`-HH:MM`), completing a timestamp whose date part is `y-m-d`. -/
def parseTimeAndOffset (y m d : Nat) (cs : List Char) : Option Timestamp :=
  match take2 cs with
  | some (h, r1) =>
    match expectChar ':' r1 with
    | some r2 =>
      match take2 r2 with
      | some (mi, r3) =>
        match expectChar ':' r3 with
        | some r4 =>
          match take2 r4 with
          | some (s, r5) =>
            if h ≤ 23 ∧ mi ≤ 59 ∧ s ≤ 59 then
              match r5 with
              | [] => some ⟨y, m, d, h, mi, s, Option.none⟩
              | c :: r6 =>
                if c = 'Z' ∧ r6 = [] then some ⟨y, m, d, h, mi, s, some 0⟩
                else if c = '+' ∨ c = '-' then
                  match take2 r6 with
                  | some (oh, r7) =>
                    match expectChar ':' r7 with
                    | some r8 =>
                      match take2 r8 with
                      | some (om, r9) =>
                        if r9 = [] ∧ oh ≤ 23 ∧ om ≤ 59 then
                          let sgn : Int := if c = '+' then 1 else -1
                          some ⟨y, m, d, h, mi, s, some (sgn * (oh * 60 + om))⟩
                        else Option.none
                      | _ => Option.none
                    | _ => Option.none
                  | _ => Option.none
                else Option.none
            else Option.none
          | _ => Option.none
        | _ => Option.none
      | _ => Option.none
    | _ => Option.none
  | _ => Option.none

/-- Parse `YYYY-MM-DD`, optionally followed by `T` or a space and a time. -/
def parseISOChars (cs : List Char) : Option Timestamp :=
  match take4 cs with
  | some (y, r1) =>
    match expectChar '-' r1 with
    | some r2 =>
      match take2 r2 with
      | some (m, r3) =>
        match expectChar '-' r3 with
        | some r4 =>
          match take2 r4 with
          | some (d, r5) =>
            if validYMD y m d then
              match r5 with
              | [] => some ⟨y, m, d, 0, 0, 0, Option.none⟩
              | sep :: r6 =>
                if sep = 'T' ∨ sep = ' ' then parseTimeAndOffset y m d r6
                else Option.none
            else Option.none
          | _ => Option.none
        | _ => Option.none
      | _ => Option.none
    | _ => Option.none
  | _ => Option.none

/-- Modelled from the spec: `dateutil.parser.parse` composed with
`pandas.to_datetime` is external library code, described by the spec as a
permissive parser accepting ISO-8601 timestamps (with or without a zone
offset) and plain `YYYY-MM-DD`; any other input raises (modelled as `none`,
which the caller's `except` turns into `None`). -/
def dateutilParse (s : String) : Option Timestamp := parseISOChars s.toList

/-- Day number of a civil date (days since 1970-01-01, Hinnant's algorithm;
used to compare timestamps and to compute day differences). -/
def daysFromCivil (y : Nat) (m : Nat) (d : Nat) : Int :=
  let yi : Int := if m ≤ 2 then (y : Int) - 1 else (y : Int)
  let mp : Int := if m ≤ 2 then (m : Int) + 9 else (m : Int) - 3
  let era : Int := Int.fdiv yi 400
  let yoe : Int := yi - era * 400
  let doy : Int := Int.fdiv (153 * mp + 2) 5 + (d : Int) - 1
  let doe : Int := yoe * 365 + Int.fdiv yoe 4 - Int.fdiv yoe 100 + doy
  era * 146097 + doe - 719468

/-- Absolute UTC second count of a timestamp: the comparison key making
parsed timestamps comparable. -/
def Timestamp.utcSeconds (t : Timestamp) : Int :=
  daysFromCivil t.year t.month t.day * 86400 +
    (t.hour : Int) * 3600 + (t.minute : Int) * 60 + (t.second : Int) -
    60 * (t.tzOffsetMinutes.getD 0)

/-!  services/camara.py  -/

/-- The errors `buscar_proposicoes_por_tema` can raise: `ValueError` for an
empty search term, `CamaraAPIError` propagated from the archive download. -/
inductive BuscaError where
  | valueError
  | camaraAPIError
deriving DecidableEq, Repr

/-- First of the fallback keys `proposicoes`, `lista`, `itens` that holds a
list in the payload (the `for key in (...)` loop of
`_get_arquivo_proposicoes_ano`). -/
def altListKey (kv : Registro) : List String → Option (List PyVal)
  | [] => Option.none
  | k :: rest =>
    match kv.lookup k with
    | some (.list l) => some l
    | _ => altListKey kv rest

/-- Shape normalization of the decoded yearly bulk archive payload
(`_get_arquivo_proposicoes_ano` after the HTTP fetch and `r.json()`, which
are passed in as the already-decoded `data`): an object with a `dados` list
yields that list, else the first of `proposicoes`/`lista`/`itens` holding a
list, else the object itself as a singleton; a bare list passes through; any
other shape yields the empty list.  Total: never raises for shape reasons. -/
def _get_arquivo_proposicoes_ano (data : PyVal) : List PyVal :=
  match data with
  | .dict kv =>
    match kv.lookup "dados" with
    | some (.list l) => l
    | _ =>
      match altListKey kv ["proposicoes", "lista", "itens"] with
      | some l => l
      | Option.none => [data]
  | .list l => l
  | _ => []

/-- The keep test of the filter loop in `buscar_proposicoes_por_tema`:
`termo_lower` and `tipos` arrive already lower-cased/stripped resp.
upper-cased, exactly as the code computes them before the loop. -/
def keepProp (termo_lower : String) (tiposU : List String) (prop : Registro) : Bool :=
  let sigla_tipo := pyUpper (pyStr (pyGetD prop "siglaTipo" (.str "")))
  if tiposU != [] && !(tiposU.contains sigla_tipo) then false
  else
    let ementa := pyStr (pyOr (pyGetD prop "ementa" (.str "")) (.str ""))
    let keywords := pyStr (pyOr (pyGetD prop "keywords" (.str "")) (.str ""))
    let resumo := pyStr (pyOr (pyGetD prop "ementaDetalhada" (.str "")) (.str ""))
    let texto_busca := pyLower (ementa ++ " " ++ keywords ++ " " ++ resumo)
    strIn termo_lower texto_busca

/-- Sort key of one record: `(int(p.get("ano", 0)), int(p.get("numero", 0)))`;
`none` models the raise inside the key function. -/
def sortKey (p : Registro) : Option (Int × Int) :=
  match pyInt (pyGetD p "ano" (.int 0)), pyInt (pyGetD p "numero" (.int 0)) with
  | some a, some n => some (a, n)
  | _, _ => Option.none

/-- Key order: `x` sorts no later than `y` in the `reverse=True` order: key of `x` is
lexicographically at least key of `y`. -/
def keyGE (x y : Int × Int) : Bool :=
  decide (y.1 < x.1 ∨ (y.1 = x.1 ∧ y.2 ≤ x.2))

/-- The `filtradas.sort(..., reverse=True)` statement inside its
`try/except: pass`: CPython computes every key before moving any element, so
a raising key (`sortKey = none`) leaves the list untouched; otherwise the
list is stably sorted descending by key. -/
def sortStep (l : List Registro) : List Registro :=
  if l.all (fun p => (sortKey p).isSome) then
    l.mergeSort (fun a b => keyGE ((sortKey a).getD (0, 0)) ((sortKey b).getD (0, 0)))
  else l

/-- Embedding of `buscar_proposicoes_por_tema`.  The network fetch
`_get_arquivo_proposicoes_ano(ano)` is passed in as `fetch` (its success
value is the year's record list; its failure is the propagated
`CamaraAPIError`).  An empty `termo` raises `ValueError` before the fetch
result is even examined. -/
def buscar_proposicoes_por_tema (termo : String)
    (fetch : Except Unit (List Registro)) (tipos : Option (List String)) :
    Except BuscaError (List Registro) :=
  if termo = "" then .error .valueError
  else
    match fetch with
    | .error _ => .error .camaraAPIError
    | .ok registros =>
      let termo_lower := pyStrip (pyLower termo)
      let tiposU := (tipos.getD []).map pyUpper
      let filtradas := registros.filter (keepProp termo_lower tiposU)
      .ok (sortStep filtradas)

/-- Embedding of `autores_por_uri`.  The HTTP GET plus `r.json()` against the absolute
URI is passed in as `resp` (`.error` models any `requests.RequestException`:
transport failure, non-2xx status, body that is not JSON).  An empty URI
short-circuits before the request. -/
def autores_por_uri (uri_autores : String) (resp : Except Unit PyVal) : PyVal :=
  if uri_autores = "" then .list []
  else
    match resp with
    | .error _ => .list []
    | .ok data =>
      match data with
      | .dict kv => pyGetD kv "dados" (.list [])
      | .list l => .list l
      | _ => .list []

/-!  utils/transforms.py  -/

/-- Is `value` one of the null-like sentinels `(None, "", pd.NaT)` that
`parse_date` and `dias_desde` test for with `in`? (`pd.NaT` is not a JSON
value, so for `PyVal` only `None` and `""` can match). -/
def isNullish : PyVal → Bool
  | .none => true
  | .str s => s == ""
  | _ => false

/-- Embedding of `parse_date`: converts API strings to timestamps; null-like input gives
`None`, anything `dateutil`/`pandas` rejects is caught and gives `None`. -/
def parse_date (value : PyVal) : Option Timestamp :=
  if isNullish value then Option.none
  else dateutilParse (pyStr value)

/-- Python exceptions that the transform layer can leak. -/
inductive PyError where
  | unboundLocal
  | attributeError
deriving DecidableEq, Repr

/-- The possible runtime shapes of the `dt` argument of `dias_desde`:
a `pandas.Timestamp`, a `datetime.datetime`, a plain `datetime.date`
(year, month, day), or any other object (modelled by `PyVal`, covering the
strings the rest of the code feeds in). -/
inductive DtInput where
  | pdTimestamp (t : Timestamp)
  | pyDatetime (t : Timestamp)
  | pyDate (y m d : Nat)
  | pdNaT
  | obj (v : PyVal)

/-- The `dt in (None, "", pd.NaT)` test at the top of `dias_desde`. -/
def nullishDt : DtInput → Bool
  | .pdNaT => true
  | .obj v => isNullish v
  | _ => false

/-- Embedding of `dias_desde(dt)`: days from `dt` until today (`hoje`, passed explicitly
since `date.today()` is impure).  The `isinstance(dt, date)` branch of the
source executes `d = d` with `d` unassigned, so a plain `datetime.date`
input raises `UnboundLocalError`. -/
def dias_desde (dt : DtInput) (hoje : Nat × Nat × Nat) : Except PyError (Option Int) :=
  if nullishDt dt then .ok Option.none
  else
    match dt with
    | .pdTimestamp t =>
      .ok (some (daysFromCivil hoje.1 hoje.2.1 hoje.2.2 - daysFromCivil t.year t.month t.day))
    | .pyDatetime t =>
      .ok (some (daysFromCivil hoje.1 hoje.2.1 hoje.2.2 - daysFromCivil t.year t.month t.day))
    | .pyDate _ _ _ => .error .unboundLocal
    | .pdNaT => .ok Option.none
    | .obj v =>
      match parse_date v with
      | Option.none => .ok Option.none
      | some t =>
        .ok (some (daysFromCivil hoje.1 hoje.2.1 hoje.2.2 - daysFromCivil t.year t.month t.day))

/-- Embedding of `_safe_get(d, k)` at the single-key arity every call site uses: a `get`
guarded by `try/except` (non-dict receivers raise `AttributeError`, caught)
and a final `is not None` check mapping a stored `None` to the default. -/
def _safe_get (d : PyVal) (k : String) : PyVal :=
  match d with
  | .dict kv => (kv.lookup k).getD PyVal.none
  | _ => PyVal.none

/-- Resolved identifier: `p.get("id") or p.get("idProposicao")`. -/
def resolvedId (p : Registro) : PyVal := pyOr (pyGet p "id") (pyGet p "idProposicao")

/-- Resolved type code: `p.get("siglaTipo") or p.get("sigla_tipo")`. -/
def resolvedSigla (p : Registro) : PyVal :=
  pyOr (pyGet p "siglaTipo") (pyGet p "sigla_tipo")

/-- Resolved number: `p.get("numero") or p.get("numProposicao") or p.get("num")`. -/
def resolvedNumero (p : Registro) : PyVal :=
  pyOr (pyGet p "numero") (pyOr (pyGet p "numProposicao") (pyGet p "num"))

/-- Resolved year: `p.get("ano") or p.get("anoProposicao")`. -/
def resolvedAno (p : Registro) : PyVal :=
  pyOr (pyGet p "ano") (pyGet p "anoProposicao")

/-- Resolved status container, defaulting to the empty dict. -/
def resolvedStatus (p : Registro) : PyVal :=
  pyOr (pyGet p "statusProposicao")
    (pyOr (pyGet p "ultimoStatus") (pyOr (pyGet p "status_proposicao") (.dict [])))

/-- The canonical tracking URL head that `df_proposicoes` parameterizes
with the resolved identifier. -/
def linkBase : String :=
  "https://www.camara.leg.br/proposicoesWeb/fichadetramitacao?idProposicao="

/-- One iteration of the `for p in registros` loop of `df_proposicoes`: the
row dict appended to `linhas`, in the literal's key order. -/
def linha (p : Registro) : List (String × PyVal) :=
  let id_prop := resolvedId p
  let sigla_tipo := resolvedSigla p
  let numero := resolvedNumero p
  let ano := resolvedAno p
  let ementa := pyOr (pyGet p "ementa") (.str "")
  let ementa_det := pyOr (pyGet p "ementaDetalhada") (.str "")
  let status := resolvedStatus p
  let situacao := pyOr (_safe_get status "descricaoSituacao")
    (pyOr (_safe_get status "situacao") (_safe_get status "descricaoTramitacao"))
  let tramitacao_atual := pyOr (_safe_get status "descricaoTramitacao")
    (_safe_get status "apreciacao")
  let data_status_raw := pyOr (_safe_get status "dataHora")
    (pyOr (_safe_get status "dataUltimoDespacho") (_safe_get status "data"))
  let data_status : PyVal :=
    match parse_date data_status_raw with
    | some t => .ts t.year t.month t.day t.hour t.minute t.second t.tzOffsetMinutes
    | Option.none => .none
  let link : PyVal :=
    if truthy id_prop then .str (linkBase ++ pyStr id_prop) else .str ""
  let rotulo : PyVal :=
    if truthy sigla_tipo && truthy numero && truthy ano then
      .str (pyStr sigla_tipo ++ " " ++ pyStr numero ++ "/" ++ pyStr ano)
    else .none
  [("id", id_prop), ("siglaTipo", sigla_tipo), ("numero", numero), ("ano", ano),
   ("rotulo", rotulo), ("ementa", pyOr ementa ementa_det), ("situacao", situacao),
   ("tramitacao_atual", tramitacao_atual), ("data_status", data_status),
   ("link", link)]

/-- The explicit column list of the empty-input branch of `df_proposicoes`. -/
def canonicalColumns : List String :=
  ["id", "siglaTipo", "numero", "ano", "rotulo", "ementa", "situacao",
   "tramitacao_atual", "data_status", "link"]

/-- The model of a `pandas.DataFrame`: its column labels and its rows (kept
as the dicts they were built from). -/
structure DataFrame where
  columns : List String
  rows : List (List (String × PyVal))

/-- Column labels `pandas.DataFrame(list_of_dicts)` infers: the union of the
rows' keys in first-appearance order. -/
def pdColumns (rows : List (List (String × PyVal))) : List String :=
  rows.foldl (fun acc r => acc ++ (r.map Prod.fst).filter (fun k => !(acc.contains k))) []

/-- Embedding of `df_proposicoes`: one row per input record; an empty input takes the
explicit-columns branch. -/
def df_proposicoes (registros : List Registro) : DataFrame :=
  let linhas := registros.map linha
  if linhas.isEmpty then ⟨canonicalColumns, []⟩
  else ⟨pdColumns linhas, linhas⟩

/-- The `(a.get("tipo") or "").lower()` of the author-selection loop;
`.lower()` on a truthy non-string raises `AttributeError`. -/
def tipoLower (a : Registro) : Except PyError String :=
  match pyOr (pyGet a "tipo") (.str "") with
  | .str s => .ok (pyLower s)
  | _ => .error .attributeError

/-- The `for a in autores_payload` loop of `extrair_autor_principal`:
first entry whose lower-cased type contains `"deputado"`, `none` if the loop
finishes without a `break`. -/
def findDeputado : List Registro → Except PyError (Option Registro)
  | [] => .ok Option.none
  | a :: rest =>
    match tipoLower a with
    | .error e => .error e
    | .ok tipo =>
      if strIn "deputado" tipo then .ok (some a) else findDeputado rest

/-- Embedding of `extrair_autor_principal`: `None` on an empty payload, else the
`nome`/`nomeAutor`/`nomeAutorPrimeiroSignatario` chain on the preferred
deputado entry (or the first entry when none matches). -/
def extrair_autor_principal (autores_payload : List Registro) : Except PyError PyVal :=
  if autores_payload.isEmpty then .ok PyVal.none
  else
    match findDeputado autores_payload with
    | .error e => .error e
    | .ok deputado =>
      let autor := deputado.getD (autores_payload.headD [])
      .ok (pyOr (pyGet autor "nome")
        (pyOr (pyGet autor "nomeAutor") (pyGet autor "nomeAutorPrimeiroSignatario")))

/-!  Spec-side definitions (written from the spec's and claims' words, to be
compared with the embedded code). -/

/-- The claims' keep-predicate for `searchByTopic`, as claim C1 words it:
type filter empty or upper-cased type code in the upper-cased filter list,
and the lower-cased search term a substring of the summary/keywords/detailed
summary joined with spaces and lower-cased.  (No stripping of the term:
exactly the claim's words.) -/
def keepClaimC1 (termo : String) (tipos : Option (List String)) (p : Registro) : Bool :=
  let tiposU := (tipos.getD []).map pyUpper
  let typeOk := tiposU.isEmpty || tiposU.contains (pyUpper (pyStr (pyGetD p "siglaTipo" (.str ""))))
  let haystack := pyLower
    (pyStr (pyOr (pyGetD p "ementa" (.str "")) (.str "")) ++ " " ++
     pyStr (pyOr (pyGetD p "keywords" (.str "")) (.str "")) ++ " " ++
     pyStr (pyOr (pyGetD p "ementaDetalhada" (.str "")) (.str "")))
  typeOk && strIn (pyLower termo) haystack

/-- The amended keep-predicate: as `keepClaimC1` but with the search term
also whitespace-stripped (after lower-casing), which is what the code does. -/
def keepSpec (termo : String) (tipos : Option (List String)) (p : Registro) : Bool :=
  let tiposU := (tipos.getD []).map pyUpper
  let typeOk := tiposU.isEmpty || tiposU.contains (pyUpper (pyStr (pyGetD p "siglaTipo" (.str ""))))
  let haystack := pyLower
    (pyStr (pyOr (pyGetD p "ementa" (.str "")) (.str "")) ++ " " ++
     pyStr (pyOr (pyGetD p "keywords" (.str "")) (.str "")) ++ " " ++
     pyStr (pyOr (pyGetD p "ementaDetalhada" (.str "")) (.str "")))
  typeOk && strIn (pyStrip (pyLower termo)) haystack

/-- Claim C2's reading of the sort key: coerce year and number to integers
with a default of 0 whenever the field is absent OR the coercion fails
(non-numeric), so the key function is total. -/
def claimKeyC2 (p : Registro) : Int × Int :=
  ((pyInt (pyGetD p "ano" (.int 0))).getD 0, (pyInt (pyGetD p "numero" (.int 0))).getD 0)

/-- Claim C2's reading of the sort: always stably sort descending by the
total key `claimKeyC2` (never abandoning the sort). -/
def claimSortC2 (l : List Registro) : List Registro :=
  l.mergeSort (fun a b => keyGE (claimKeyC2 a) (claimKeyC2 b))

/-- Is the value Python `None`? -/
def isNoneVal : PyVal → Bool
  | .none => true
  | _ => false

/-- Is the value a Python `str`? -/
def isStrVal : PyVal → Bool
  | .str _ => true
  | _ => false

/-- The claims' selection rule for the primary author: first entry whose
type field contains `"deputado"` case-insensitively. -/
def isDeputadoEntry (a : Registro) : Bool :=
  strIn "deputado"
    (match pyOr (pyGet a "tipo") (.str "") with
     | .str s => pyLower s
     | _ => "")

/-- The name fallback chain of `extrair_autor_principal` (first truthy of
`nome`, `nomeAutor`, `nomeAutorPrimeiroSignatario`). -/
def nameChain (autor : Registro) : PyVal :=
  pyOr (pyGet autor "nome")
    (pyOr (pyGet autor "nomeAutor") (pyGet autor "nomeAutorPrimeiroSignatario"))

/-- Claim C5's author extractor, as the claim words it: select the first
deputado entry else the first entry; resolve the name as the first non-null
of the three flat keys, or as `autor.nome` for the nested shape. -/
def extractPrimaryAuthorClaim (autores : List Registro) : PyVal :=
  if autores.isEmpty then .none
  else
    let sel := (autores.find? isDeputadoEntry).getD (autores.headD [])
    let flat := (([pyGet sel "nome", pyGet sel "nomeAutor",
        pyGet sel "nomeAutorPrimeiroSignatario"].find? (fun v => !(isNoneVal v))).getD PyVal.none)
    if !(isNoneVal flat) then flat else _safe_get (pyGet sel "autor") "nome"

/-- Does the optional value hold a JSON array? -/
def isListVal : Option PyVal → Bool
  | some (.list _) => true
  | _ => false

/-!  Rendering of the date shapes claim C7 quantifies over. -/

/-- The decimal digit character for `k mod 10`. -/
def digitChar (k : Nat) : Char := Char.ofNat (48 + k % 10)

/-- Two-digit zero-padded decimal rendering (for `n < 100`). -/
def pad2 (n : Nat) : List Char := [digitChar (n / 10), digitChar n]

/-- Four-digit zero-padded decimal rendering (for `n < 10000`). -/
def pad4 (n : Nat) : List Char :=
  [digitChar (n / 1000), digitChar (n / 100), digitChar (n / 10), digitChar n]

/-- A plain `YYYY-MM-DD` string. -/
def renderDate (y m d : Nat) : String :=
  String.mk (pad4 y ++ '-' :: (pad2 m ++ '-' :: pad2 d))

/-- An ISO-8601 timestamp without a zone offset. -/
def renderDateTime (y m d h mi s : Nat) : String :=
  String.mk (pad4 y ++ '-' :: (pad2 m ++ '-' :: (pad2 d ++ 'T' ::
    (pad2 h ++ ':' :: (pad2 mi ++ ':' :: pad2 s)))))

/-- An ISO-8601 timestamp with a `±HH:MM` zone offset. -/
def renderDateTimeOffset (y m d h mi s : Nat) (negOff : Bool) (oh om : Nat) : String :=
  String.mk (pad4 y ++ '-' :: (pad2 m ++ '-' :: (pad2 d ++ 'T' ::
    (pad2 h ++ ':' :: (pad2 mi ++ ':' :: (pad2 s ++
      (if negOff then '-' else '+') :: (pad2 oh ++ ':' :: pad2 om)))))))

/-!  Claim theorems. -/

/-- C10: the claim says the days-since helper is total and never raises,
including on a plain `datetime.date` input.  The code is wrong: the
`isinstance(dt, date)` branch executes `d = d` with `d` unassigned, so every
plain `datetime.date` input raises `UnboundLocalError` (first conjunct),
while the neighbouring `pandas.Timestamp` branch works as the claim
describes (second conjunct, 10 days from 2022-05-10 to 2022-05-20). -/
theorem dias_desde_plain_date_raises :
    (∀ (y m d : Nat) (hoje : Nat × Nat × Nat),
      dias_desde (.pyDate y m d) hoje = .error .unboundLocal) ∧
    dias_desde (.pdTimestamp ⟨2022, 5, 10, 0, 0, 0, Option.none⟩) (2022, 5, 20) =
      .ok (some 10) :=
  ⟨fun _ _ _ _ => rfl, rfl⟩

/-- C8: `buscar_proposicoes_por_tema` raises `ValueError` (the spec's
`InvalidArgument`) exactly when the search term is empty, regardless of what
the network fetch would return — in particular even when the fetch would
fail, showing the check happens before any network access. -/
theorem buscar_invalid_argument_iff (termo : String)
    (fetch : Except Unit (List Registro)) (tipos : Option (List String)) :
    buscar_proposicoes_por_tema termo fetch tipos = .error .valueError ↔ termo = "" := by
  unfold buscar_proposicoes_por_tema
  by_cases h : termo = ""
  · simp [h]
  · rw [if_neg h]
    cases fetch with
    | error e => simp [h]
    | ok registros => simp [h]

/-- C9: the absolute-URI fallback accessor is total and best-effort: empty
URI, transport failure, envelope object, bare array, and every other
response shape produce exactly the results the claim lists. -/
theorem autores_por_uri_shapes (uri : String) (resp : Except Unit PyVal) :
    (autores_por_uri "" resp = .list []) ∧
    (autores_por_uri uri (.error ()) = .list []) ∧
    (uri ≠ "" → ∀ kv : Registro, resp = .ok (.dict kv) →
      autores_por_uri uri resp = pyGetD kv "dados" (.list [])) ∧
    (uri ≠ "" → ∀ l : List PyVal, resp = .ok (.list l) →
      autores_por_uri uri resp = .list l) ∧
    (uri ≠ "" → autores_por_uri uri (.ok .none) = .list []) ∧
    (uri ≠ "" → ∀ n : Int, autores_por_uri uri (.ok (.int n)) = .list []) ∧
    (uri ≠ "" → ∀ s : String, autores_por_uri uri (.ok (.str s)) = .list []) := by
  refine ⟨rfl, ?_, ?_, ?_, ?_, ?_, ?_⟩
  · unfold autores_por_uri
    by_cases h : uri = "" <;> simp [h]
  · intro h kv hkv
    unfold autores_por_uri
    rw [if_neg h, hkv]
  · intro h l hl
    unfold autores_por_uri
    rw [if_neg h, hl]
  · intro h
    unfold autores_por_uri
    rw [if_neg h]
  · intro h n
    unfold autores_por_uri
    rw [if_neg h]
  · intro h s
    unfold autores_por_uri
    rw [if_neg h]

/-- Witness for C9 at concrete inputs: every hypothesis discharged at
`uri = "http://x"` with an envelope object and a bare array. -/
theorem autores_por_uri_shapes_witness :
    ("http://x" : String) ≠ "" ∧
    autores_por_uri "http://x" (.ok (.dict [("dados", PyVal.list [PyVal.int 7])])) =
      pyGetD [("dados", PyVal.list [PyVal.int 7])] "dados" (.list []) ∧
    autores_por_uri "http://x" (.ok (.list [PyVal.int 8])) = .list [PyVal.int 8] :=
  ⟨by decide,
   (autores_por_uri_shapes "http://x" (.ok (.dict [("dados", PyVal.list [PyVal.int 7])]))).2.2.1
     (by decide) _ rfl,
   (autores_por_uri_shapes "http://x" (.ok (.list [PyVal.int 8]))).2.2.2.1
     (by decide) _ rfl⟩


/-- If a key does not hold a list, the archive accessor's fallback-key scan
skips it. -/
theorem altListKey_skip (kv : Registro) (k : String) (ks : List String)
    (h : isListVal (kv.lookup k) = false) :
    altListKey kv (k :: ks) = altListKey kv ks := by
  have he : altListKey kv (k :: ks) =
      (match kv.lookup k with
       | some (.list l) => some l
       | _ => altListKey kv ks) := rfl
  rw [he]
  cases hd : kv.lookup k with
  | none => rfl
  | some v =>
    rw [hd] at h
    cases v <;> simp_all [isListVal]

/-- The reduction of the archive accessor on an object payload. -/
theorem arquivo_dict_eq (kv : Registro) :
    _get_arquivo_proposicoes_ano (.dict kv) =
      (match kv.lookup "dados" with
       | some (.list l) => l
       | _ =>
         match altListKey kv ["proposicoes", "lista", "itens"] with
         | some l => l
         | Option.none => [PyVal.dict kv]) := rfl

/-- If the payload object has no `dados` list, the archive accessor falls
through to the fallback-key scan. -/
theorem arquivo_skip_dados (kv : Registro)
    (h : isListVal (kv.lookup "dados") = false) :
    _get_arquivo_proposicoes_ano (.dict kv) =
      (match altListKey kv ["proposicoes", "lista", "itens"] with
       | some l => l
       | Option.none => [PyVal.dict kv]) := by
  rw [arquivo_dict_eq]
  cases hd : kv.lookup "dados" with
  | none => rfl
  | some v =>
    rw [hd] at h
    cases v <;> simp_all [isListVal]

/-- C6: shape normalization of the decoded bulk-archive payload, case by
case in the claim's order of precedence: a `dados` array wins, then the
first of `proposicoes`/`lista`/`itens` holding an array, then the object
itself as a singleton; a bare array passes through; every non-object,
non-array shape yields the empty sequence (and the accessor is a total
function, so it never raises over shapes). -/
theorem arquivo_shape_cases :
    (∀ (kv : Registro) (l : List PyVal), kv.lookup "dados" = some (.list l) →
      _get_arquivo_proposicoes_ano (.dict kv) = l) ∧
    (∀ (kv : Registro) (l : List PyVal), isListVal (kv.lookup "dados") = false →
      kv.lookup "proposicoes" = some (.list l) →
      _get_arquivo_proposicoes_ano (.dict kv) = l) ∧
    (∀ (kv : Registro) (l : List PyVal), isListVal (kv.lookup "dados") = false →
      isListVal (kv.lookup "proposicoes") = false →
      kv.lookup "lista" = some (.list l) →
      _get_arquivo_proposicoes_ano (.dict kv) = l) ∧
    (∀ (kv : Registro) (l : List PyVal), isListVal (kv.lookup "dados") = false →
      isListVal (kv.lookup "proposicoes") = false →
      isListVal (kv.lookup "lista") = false →
      kv.lookup "itens" = some (.list l) →
      _get_arquivo_proposicoes_ano (.dict kv) = l) ∧
    (∀ kv : Registro, isListVal (kv.lookup "dados") = false →
      isListVal (kv.lookup "proposicoes") = false →
      isListVal (kv.lookup "lista") = false →
      isListVal (kv.lookup "itens") = false →
      _get_arquivo_proposicoes_ano (.dict kv) = [PyVal.dict kv]) ∧
    (∀ l : List PyVal, _get_arquivo_proposicoes_ano (.list l) = l) ∧
    (_get_arquivo_proposicoes_ano .none = [] ∧
      (∀ n : Int, _get_arquivo_proposicoes_ano (.int n) = []) ∧
      (∀ s : String, _get_arquivo_proposicoes_ano (.str s) = [])) := by
  refine ⟨?_, ?_, ?_, ?_, ?_, fun _ => rfl, rfl, fun _ => rfl, fun _ => rfl⟩
  · intro kv l h
    rw [arquivo_dict_eq, h]
  · intro kv l h h1
    rw [arquivo_skip_dados kv h]
    have he : altListKey kv ["proposicoes", "lista", "itens"] =
        (match kv.lookup "proposicoes" with
         | some (.list l) => some l
         | _ => altListKey kv ["lista", "itens"]) := rfl
    rw [he, h1]
  · intro kv l h h1 h2
    rw [arquivo_skip_dados kv h, altListKey_skip kv _ _ h1]
    have he : altListKey kv ["lista", "itens"] =
        (match kv.lookup "lista" with
         | some (.list l) => some l
         | _ => altListKey kv ["itens"]) := rfl
    rw [he, h2]
  · intro kv l h h1 h2 h3
    rw [arquivo_skip_dados kv h, altListKey_skip kv _ _ h1, altListKey_skip kv _ _ h2]
    have he : altListKey kv ["itens"] =
        (match kv.lookup "itens" with
         | some (.list l) => some l
         | _ => altListKey kv []) := rfl
    rw [he, h3]
  · intro kv h h1 h2 h3
    rw [arquivo_skip_dados kv h, altListKey_skip kv _ _ h1, altListKey_skip kv _ _ h2,
      altListKey_skip kv _ _ h3]
    rfl

/-- Witness for C6: each hypothetical case of the shape analysis discharged
at a concrete payload. -/
theorem arquivo_shape_cases_witness :
    ([("dados", PyVal.list [PyVal.int 1])].lookup "dados" = some (PyVal.list [PyVal.int 1]) ∧
      _get_arquivo_proposicoes_ano (.dict [("dados", PyVal.list [PyVal.int 1])]) = [PyVal.int 1]) ∧
    (isListVal ([("lista", PyVal.list [PyVal.int 2])].lookup "dados") = false ∧
      isListVal ([("lista", PyVal.list [PyVal.int 2])].lookup "proposicoes") = false ∧
      _get_arquivo_proposicoes_ano (.dict [("lista", PyVal.list [PyVal.int 2])]) = [PyVal.int 2]) ∧
    _get_arquivo_proposicoes_ano (.dict [("x", PyVal.int 3)]) = [PyVal.dict [("x", PyVal.int 3)]] := by
  refine ⟨⟨rfl, arquivo_shape_cases.1 _ [PyVal.int 1] rfl⟩, ⟨rfl, rfl, ?_⟩, ?_⟩
  · exact arquivo_shape_cases.2.2.1 _ [PyVal.int 2] rfl rfl rfl
  · exact arquivo_shape_cases.2.2.2.2.1 _ rfl rfl rfl rfl

/-- Every row dict built by `df_proposicoes` has exactly the canonical keys,
in the literal's order. -/
theorem linha_keys (p : Registro) : (linha p).map Prod.fst = canonicalColumns := rfl

/-- Column inference is a fixed point at the canonical columns: a row whose
keys are canonical adds nothing. -/
theorem pdColumns_fixpoint :
    canonicalColumns ++ canonicalColumns.filter (fun k => !(canonicalColumns.contains k)) =
      canonicalColumns := by decide

/-- Folding column inference over canonical-keyed rows stays canonical. -/
theorem pdColumns_fold (rs : List Registro) :
    List.foldl (fun acc r => acc ++ (r.map Prod.fst).filter (fun k => !(acc.contains k)))
      canonicalColumns (rs.map linha) = canonicalColumns := by
  induction rs with
  | nil => rfl
  | cons hd tl ih =>
    simp only [List.map_cons, List.foldl_cons, linha_keys, pdColumns_fixpoint]
    exact ih

/-- C3: `df_proposicoes` produces exactly one output row per input record
and its column set is always the full canonical list — in particular the
empty input yields zero rows with every canonical column still defined. -/
theorem df_proposicoes_shape (registros : List Registro) :
    (df_proposicoes registros).rows.length = registros.length ∧
    (df_proposicoes registros).columns = canonicalColumns := by
  cases registros with
  | nil => exact ⟨rfl, rfl⟩
  | cons hd tl =>
    constructor
    · show (List.map linha (hd :: tl)).length = (hd :: tl).length
      simp
    · show pdColumns (List.map linha (hd :: tl)) = canonicalColumns
      unfold pdColumns
      simp only [List.map_cons, List.foldl_cons]
      have h0 : (([] : List String) ++
          ((linha hd).map Prod.fst).filter (fun k => !(([] : List String).contains k))) =
          canonicalColumns := by
        rw [linha_keys]; decide
      rw [h0]
      exact pdColumns_fold tl

/-- Reduction of the row's `rotulo` field: derived exactly under the code's
truthiness test of the three resolved components. -/
theorem linha_rotulo (p : Registro) :
    pyGet (linha p) "rotulo" =
      (if truthy (resolvedSigla p) && truthy (resolvedNumero p) && truthy (resolvedAno p) then
        PyVal.str (pyStr (resolvedSigla p) ++ " " ++ pyStr (resolvedNumero p) ++ "/" ++
          pyStr (resolvedAno p))
      else PyVal.none) := rfl

/-- Reduction of the row's `link` field. -/
theorem linha_link (p : Registro) :
    pyGet (linha p) "link" =
      (if truthy (resolvedId p) then PyVal.str (linkBase ++ pyStr (resolvedId p))
       else PyVal.str "") := rfl

/-- The tracking URL is never the empty string. -/
theorem linkBase_append_ne_empty (s : String) : linkBase ++ s ≠ "" := by
  intro h
  have hl := congrArg String.length h
  rw [String.length_append] at hl
  have : 0 < linkBase.length := by decide
  simp at hl
  omega

/-- C4 (amended): `df_proposicoes` derives `rotulo` exactly when the
resolved type code, number and year are all truthy (non-null, non-zero,
non-empty) — not merely present — and then it is the `"TYPE N/Y"` display
string; it derives `link` as the canonical tracking URL of the resolved
identifier exactly when that identifier is truthy, and the empty string
otherwise; and the record `containing only id = 5` yields a row with null
`rotulo`, a link containing `5`, and all three status fields null. -/
theorem linha_rotulo_link_spec (p : Registro) :
    (pyGet (linha p) "rotulo" ≠ PyVal.none ↔
      (truthy (resolvedSigla p) && truthy (resolvedNumero p) && truthy (resolvedAno p)) = true) ∧
    ((truthy (resolvedSigla p) && truthy (resolvedNumero p) && truthy (resolvedAno p)) = true →
      pyGet (linha p) "rotulo" =
        PyVal.str (pyStr (resolvedSigla p) ++ " " ++ pyStr (resolvedNumero p) ++ "/" ++
          pyStr (resolvedAno p))) ∧
    (pyGet (linha p) "link" = PyVal.str "" ↔ truthy (resolvedId p) = false) ∧
    (truthy (resolvedId p) = true →
      pyGet (linha p) "link" = PyVal.str (linkBase ++ pyStr (resolvedId p))) ∧
    (pyGet (linha [("id", PyVal.int 5)]) "rotulo" = PyVal.none ∧
      pyGet (linha [("id", PyVal.int 5)]) "link" = PyVal.str (linkBase ++ "5") ∧
      pyGet (linha [("id", PyVal.int 5)]) "situacao" = PyVal.none ∧
      pyGet (linha [("id", PyVal.int 5)]) "tramitacao_atual" = PyVal.none ∧
      pyGet (linha [("id", PyVal.int 5)]) "data_status" = PyVal.none) := by
  refine ⟨?_, ?_, ?_, ?_, rfl, rfl, rfl, rfl, rfl⟩
  · rw [linha_rotulo]
    by_cases hc : (truthy (resolvedSigla p) && truthy (resolvedNumero p) &&
        truthy (resolvedAno p)) = true
    · simp [hc]
    · simp [hc]
  · intro hc
    rw [linha_rotulo, if_pos hc]
  · rw [linha_link]
    by_cases hc : truthy (resolvedId p) = true
    · simp only [if_pos hc, hc]
      constructor
      · intro h
        exact absurd (PyVal.str.inj h) (linkBase_append_ne_empty _)
      · intro h
        simp at h
    · simp only [Bool.not_eq_true] at hc
      simp [hc]
  · intro hc
    rw [linha_link, if_pos hc]

/-- Witness for C4 at a concrete record with all three components truthy
and a truthy identifier. -/
theorem linha_rotulo_link_spec_witness :
    (truthy (resolvedSigla [("siglaTipo", PyVal.str "PL"), ("numero", PyVal.int 5),
        ("ano", PyVal.int 2021), ("id", PyVal.int 9)]) &&
      truthy (resolvedNumero [("siglaTipo", PyVal.str "PL"), ("numero", PyVal.int 5),
        ("ano", PyVal.int 2021), ("id", PyVal.int 9)]) &&
      truthy (resolvedAno [("siglaTipo", PyVal.str "PL"), ("numero", PyVal.int 5),
        ("ano", PyVal.int 2021), ("id", PyVal.int 9)])) = true ∧
    pyGet (linha [("siglaTipo", PyVal.str "PL"), ("numero", PyVal.int 5),
        ("ano", PyVal.int 2021), ("id", PyVal.int 9)]) "rotulo" =
      PyVal.str (pyStr (resolvedSigla [("siglaTipo", PyVal.str "PL"), ("numero", PyVal.int 5),
        ("ano", PyVal.int 2021), ("id", PyVal.int 9)]) ++ " " ++
        pyStr (resolvedNumero [("siglaTipo", PyVal.str "PL"), ("numero", PyVal.int 5),
        ("ano", PyVal.int 2021), ("id", PyVal.int 9)]) ++ "/" ++
        pyStr (resolvedAno [("siglaTipo", PyVal.str "PL"), ("numero", PyVal.int 5),
        ("ano", PyVal.int 2021), ("id", PyVal.int 9)])) :=
  ⟨rfl, (linha_rotulo_link_spec [("siglaTipo", PyVal.str "PL"), ("numero", PyVal.int 5),
    ("ano", PyVal.int 2021), ("id", PyVal.int 9)]).2.1 rfl⟩

/-- C4 counterexample: in the record
`siglaTipo = "PL", numero = 5, anoProposicao = 0` all three components
resolve to present (non-null) values — the row even shows `ano = 0` — yet
`rotulo` is null, because the code tests Python truthiness, not presence.
So "label derived exactly when type code, number and year are all present"
is false as stated. -/
theorem linha_rotulo_counterexample :
    resolvedSigla [("siglaTipo", PyVal.str "PL"), ("numero", PyVal.int 5),
        ("anoProposicao", PyVal.int 0)] ≠ PyVal.none ∧
    resolvedNumero [("siglaTipo", PyVal.str "PL"), ("numero", PyVal.int 5),
        ("anoProposicao", PyVal.int 0)] ≠ PyVal.none ∧
    resolvedAno [("siglaTipo", PyVal.str "PL"), ("numero", PyVal.int 5),
        ("anoProposicao", PyVal.int 0)] ≠ PyVal.none ∧
    pyGet (linha [("siglaTipo", PyVal.str "PL"), ("numero", PyVal.int 5),
        ("anoProposicao", PyVal.int 0)]) "ano" = PyVal.int 0 ∧
    pyGet (linha [("siglaTipo", PyVal.str "PL"), ("numero", PyVal.int 5),
        ("anoProposicao", PyVal.int 0)]) "rotulo" = PyVal.none :=
  ⟨fun h => PyVal.noConfusion h, fun h => PyVal.noConfusion h,
   fun h => PyVal.noConfusion h, rfl, rfl⟩

/-- The filter loop's keep test coincides with the (amended) spec predicate:
type filter empty or type code in it, AND the lower-cased-and-stripped term
a substring of the joined lower-cased text fields. -/
theorem keepProp_eq_keepSpec (termo : String) (tipos : Option (List String)) (p : Registro) :
    keepProp (pyStrip (pyLower termo)) ((tipos.getD []).map pyUpper) p =
      keepSpec termo tipos p := by
  unfold keepProp keepSpec
  cases hT : (tipos.getD []).map pyUpper with
  | nil => simp
  | cons t ts =>
    cases hb : (t :: ts).contains (pyUpper (pyStr (pyGetD p "siglaTipo" (.str "")))) with
    | false => simp only [hb]; simp
    | true => simp only [hb]; simp

/-- C1 (amended): for every non-empty term, `buscar_proposicoes_por_tema`
returns exactly the fetched records satisfying the conjunctive predicate
"type filter empty OR upper-cased type code in the upper-cased filter list,
AND the lower-cased, whitespace-stripped term a substring of the
summary/keywords/detailed-summary fields (each defaulted to the empty
string, joined with a space, lower-cased)" — in source order, then passed
through the sort step.  Membership in the result is equivalent to being a
kept fetched record. -/
theorem buscar_keeps_iff (termo : String) (h : termo ≠ "")
    (regs : List Registro) (tipos : Option (List String)) :
    buscar_proposicoes_por_tema termo (.ok regs) tipos =
      .ok (sortStep (regs.filter (keepSpec termo tipos))) ∧
    (∀ r : Registro, ∀ out : List Registro,
      buscar_proposicoes_por_tema termo (.ok regs) tipos = .ok out →
      (r ∈ out ↔ r ∈ regs.filter (keepSpec termo tipos))) := by
  have hfil : regs.filter (keepProp (pyStrip (pyLower termo)) ((tipos.getD []).map pyUpper)) =
      regs.filter (keepSpec termo tipos) :=
    List.filter_congr (fun p _ => keepProp_eq_keepSpec termo tipos p)
  have hmain : buscar_proposicoes_por_tema termo (.ok regs) tipos =
      .ok (sortStep (regs.filter (keepSpec termo tipos))) := by
    unfold buscar_proposicoes_por_tema
    rw [if_neg h]
    show Except.ok (sortStep (regs.filter (keepProp (pyStrip (pyLower termo))
      ((tipos.getD []).map pyUpper)))) = _
    rw [hfil]
  refine ⟨hmain, ?_⟩
  intro r out hout
  rw [hmain] at hout
  cases hout
  unfold sortStep
  by_cases hall : (regs.filter (keepSpec termo tipos)).all (fun p => (sortKey p).isSome)
  · rw [if_pos hall]
    exact (List.mergeSort_perm _ _).mem_iff
  · rw [if_neg hall]

/-- Witness for C1 at a concrete non-empty term. -/
theorem buscar_keeps_iff_witness :
    ("energia" : String) ≠ "" ∧
    buscar_proposicoes_por_tema "energia" (.ok []) Option.none =
      .ok (sortStep (List.filter (keepSpec "energia" Option.none) [])) :=
  ⟨by decide, (buscar_keeps_iff "energia" (by decide) [] Option.none).1⟩

unseal List.merge List.mergeSort in
/-- C1 counterexample: with the term `" a "` and a record whose summary is
`"ba"`, the claim's own predicate (which lower-cases but does not strip the
term) rejects the record, yet the code keeps it, because the code also
strips the term before the substring test. -/
theorem buscar_keeps_iff_counterexample :
    keepClaimC1 " a " Option.none [("ementa", PyVal.str "ba")] = false ∧
    buscar_proposicoes_por_tema " a " (.ok [[("ementa", PyVal.str "ba")]]) Option.none =
      .ok [[("ementa", PyVal.str "ba")]] :=
  ⟨rfl, rfl⟩

/-- The descending lexicographic key comparison is transitive. -/
theorem keyGE_trans (x y z : Int × Int) (hxy : keyGE x y = true) (hyz : keyGE y z = true) :
    keyGE x z = true := by
  simp only [keyGE, decide_eq_true_eq] at *
  omega

/-- The descending lexicographic key comparison is total. -/
theorem keyGE_total (x y : Int × Int) : (keyGE x y || keyGE y x) = true := by
  simp only [keyGE, Bool.or_eq_true, decide_eq_true_eq]
  omega

/-- The example records of claim C2 (kept by the term `"a"`). -/
def rec2021 : Registro :=
  [("ano", PyVal.int 2021), ("numero", PyVal.int 5), ("ementa", PyVal.str "a")]

/-- Second example record of claim C2. -/
def rec2023 : Registro :=
  [("ano", PyVal.int 2023), ("numero", PyVal.int 1), ("ementa", PyVal.str "a")]

/-- A kept record whose `ano` is present but non-numeric. -/
def recAnoX : Registro :=
  [("ano", PyVal.str "x"), ("numero", PyVal.int 1), ("ementa", PyVal.str "a")]

unseal List.merge List.mergeSort in
/-- C2 (amended): when every kept record's year and number coerce (with
default 0 only for an absent field), the sort step permutes the kept records
into descending `(year, number)` order and is stable (records with equal
keys keep their original relative order); when any present field fails to
coerce, the exception is caught and the kept records stay in their original
order — the call never raises.  For kept records with years 2021/number 5
and 2023/number 1, the 2023 record sorts first. -/
theorem sortStep_spec :
    (∀ l : List Registro, (∀ p ∈ l, (sortKey p).isSome = true) →
      (sortStep l).Perm l ∧
      List.Pairwise
        (fun a b => keyGE ((sortKey a).getD (0, 0)) ((sortKey b).getD (0, 0)) = true)
        (sortStep l) ∧
      (∀ k : Int × Int, (sortStep l).filter (fun p => sortKey p == some k) =
        l.filter (fun p => sortKey p == some k))) ∧
    (∀ l : List Registro, ∀ p ∈ l, sortKey p = Option.none → sortStep l = l) ∧
    buscar_proposicoes_por_tema "a" (.ok [rec2021, rec2023]) Option.none =
      .ok [rec2023, rec2021] := by
  have htr : ∀ a b c : Registro,
      keyGE ((sortKey a).getD (0, 0)) ((sortKey b).getD (0, 0)) = true →
      keyGE ((sortKey b).getD (0, 0)) ((sortKey c).getD (0, 0)) = true →
      keyGE ((sortKey a).getD (0, 0)) ((sortKey c).getD (0, 0)) = true :=
    fun a b c hab hbc => keyGE_trans _ _ _ hab hbc
  have hto : ∀ a b : Registro,
      (keyGE ((sortKey a).getD (0, 0)) ((sortKey b).getD (0, 0)) ||
       keyGE ((sortKey b).getD (0, 0)) ((sortKey a).getD (0, 0))) = true :=
    fun a b => keyGE_total _ _
  refine ⟨?_, ?_, rfl⟩
  · intro l h
    have hall : l.all (fun p => (sortKey p).isSome) = true := List.all_eq_true.mpr h
    unfold sortStep
    rw [if_pos hall]
    refine ⟨List.mergeSort_perm l _, List.sorted_mergeSort htr hto l, ?_⟩
    rintro ⟨k1, k2⟩
    have hpw : (l.filter (fun p => sortKey p == some (k1, k2))).Pairwise
        (fun a b => keyGE ((sortKey a).getD (0, 0)) ((sortKey b).getD (0, 0)) = true) := by
      apply List.pairwise_of_forall_mem_list
      intro a ha b hb
      have ha' : sortKey a = some (k1, k2) := eq_of_beq (List.mem_filter.mp ha).2
      have hb' : sortKey b = some (k1, k2) := eq_of_beq (List.mem_filter.mp hb).2
      rw [ha', hb']
      simp [keyGE]
    have hsub : List.Sublist (l.filter (fun p => sortKey p == some (k1, k2))) l :=
      List.filter_sublist l
    have hstab : List.Sublist (l.filter (fun p => sortKey p == some (k1, k2)))
        (l.mergeSort (fun a b => keyGE ((sortKey a).getD (0, 0)) ((sortKey b).getD (0, 0)))) :=
      List.sublist_mergeSort htr hto hpw hsub
    have hperm : List.Perm ((l.mergeSort
          (fun a b => keyGE ((sortKey a).getD (0, 0)) ((sortKey b).getD (0, 0)))).filter
          (fun p => sortKey p == some (k1, k2)))
        (l.filter (fun p => sortKey p == some (k1, k2))) :=
      (List.mergeSort_perm l _).filter _
    have heq : (l.filter (fun p => sortKey p == some (k1, k2))).filter
        (fun p => sortKey p == some (k1, k2)) = l.filter (fun p => sortKey p == some (k1, k2)) :=
      List.filter_eq_self.mpr (fun a ha => (List.mem_filter.mp ha).2)
    have h1 : List.Sublist (l.filter (fun p => sortKey p == some (k1, k2)))
        ((l.mergeSort (fun a b => keyGE ((sortKey a).getD (0, 0))
          ((sortKey b).getD (0, 0)))).filter (fun p => sortKey p == some (k1, k2))) :=
      heq ▸ List.Sublist.filter _ hstab
    exact (List.Sublist.eq_of_length h1 hperm.length_eq.symm).symm
  · intro l p hp hnone
    unfold sortStep
    rw [if_neg]
    intro hall
    have := List.all_eq_true.mp hall p hp
    rw [hnone] at this
    simp at this

/-- Witness for C2: all keys coerce in `[rec2021]`, so the sorted
permutation conclusion applies there; and `recAnoX`'s key raises, so a list
containing it is left untouched. -/
theorem sortStep_spec_witness :
    ((∀ p ∈ [rec2021], (sortKey p).isSome = true) ∧ (sortStep [rec2021]).Perm [rec2021]) ∧
    (recAnoX ∈ [recAnoX, rec2023] ∧ sortKey recAnoX = Option.none ∧
      sortStep [recAnoX, rec2023] = [recAnoX, rec2023]) :=
  ⟨⟨by decide, (sortStep_spec.1 [rec2021] (by decide)).1⟩,
   ⟨List.mem_cons_self _ _, rfl,
    sortStep_spec.2.1 [recAnoX, rec2023] recAnoX (List.mem_cons_self _ _) rfl⟩⟩

unseal List.merge List.mergeSort in
/-- C2 counterexample: `recAnoX` has `ano` present but non-numeric.  Claim
C2's coercion rule ("default of 0 when the field is absent or non-numeric")
makes its key `(0, 1)` and therefore sorts `rec2023` first, but the code's
`int("x")` raises, the `except` abandons the whole sort, and the result
stays in original order — so the claim's stated output order is wrong. -/
theorem sortStep_spec_counterexample :
    buscar_proposicoes_por_tema "a" (.ok [recAnoX, rec2023]) Option.none =
      .ok [recAnoX, rec2023] ∧
    claimSortC2 [recAnoX, rec2023] = [rec2023, recAnoX] ∧
    claimKeyC2 recAnoX = (0, 1) :=
  ⟨rfl, rfl, rfl⟩

/-- When every entry's type field is (or defaults to) a string, the
author-selection loop equals `List.find?` with the deputado predicate. -/
theorem findDeputado_eq_find? (autores : List Registro)
    (h : ∀ a ∈ autores, isStrVal (pyOr (pyGet a "tipo") (.str "")) = true) :
    findDeputado autores = .ok (autores.find? isDeputadoEntry) := by
  induction autores with
  | nil => rfl
  | cons a rest ih =>
    have ha := h a (List.mem_cons_self a rest)
    cases hs : pyOr (pyGet a "tipo") (.str "") with
    | str s =>
      have htl : tipoLower a = .ok (pyLower s) := by
        unfold tipoLower
        rw [hs]
      have hdep : isDeputadoEntry a = strIn "deputado" (pyLower s) := by
        unfold isDeputadoEntry
        rw [hs]
      have hstep0 : findDeputado (a :: rest) =
          (match tipoLower a with
           | .error e => .error e
           | .ok tipo => if strIn "deputado" tipo then .ok (some a) else findDeputado rest) := rfl
      have hstep : findDeputado (a :: rest) =
          (if strIn "deputado" (pyLower s) then .ok (some a) else findDeputado rest) := by
        rw [hstep0, htl]
      rw [hstep, List.find?_cons, hdep]
      by_cases hb : strIn "deputado" (pyLower s) = true
      · rw [if_pos hb, hb]
      · rw [if_neg hb]
        rw [Bool.not_eq_true] at hb
        rw [hb]
        exact ih (fun x hx => h x (List.mem_cons_of_mem a hx))
    | none => rw [hs] at ha; simp [isStrVal] at ha
    | int n => rw [hs] at ha; simp [isStrVal] at ha
    | list xs => rw [hs] at ha; simp [isStrVal] at ha
    | dict kv => rw [hs] at ha; simp [isStrVal] at ha
    | ts y m d hh mi s o => rw [hs] at ha; simp [isStrVal] at ha

/-- C5 (amended): on an empty payload the extractor returns `None`; on a
payload whose type fields are strings (or absent) it selects the first
entry whose lower-cased type contains `"deputado"`, else the first entry,
and resolves the name as the first truthy of `nome`, `nomeAutor`,
`nomeAutorPrimeiroSignatario` on the selected entry (there is no nested
`autor.nome` fallback).  On the claim's example payload it selects the
second entry and returns `"X"`. -/
theorem extrair_autor_spec (autores : List Registro)
    (h : ∀ a ∈ autores, isStrVal (pyOr (pyGet a "tipo") (.str "")) = true) :
    extrair_autor_principal autores =
      .ok (nameChain ((autores.find? isDeputadoEntry).getD (autores.headD []))) ∧
    extrair_autor_principal
      [[("tipo", PyVal.str "Comissão")], [("tipo", PyVal.str "Deputado"), ("nome", PyVal.str "X")]] =
      .ok (PyVal.str "X") := by
  constructor
  · cases autores with
    | nil => rfl
    | cons a rest =>
      unfold extrair_autor_principal
      rw [findDeputado_eq_find? _ h]
      rfl
  · rfl

/-- Witness for C5: the string-typed hypothesis discharged at a concrete
payload whose only entry is a deputado named `X`. -/
theorem extrair_autor_spec_witness :
    (∀ a ∈ [[("tipo", PyVal.str "Deputado"), ("nome", PyVal.str "X")]],
      isStrVal (pyOr (pyGet a "tipo") (.str "")) = true) ∧
    extrair_autor_principal [[("tipo", PyVal.str "Deputado"), ("nome", PyVal.str "X")]] =
      .ok (nameChain ((([[("tipo", PyVal.str "Deputado"), ("nome", PyVal.str "X")]] :
        List Registro).find? isDeputadoEntry).getD
          (([[("tipo", PyVal.str "Deputado"), ("nome", PyVal.str "X")]] :
            List Registro).headD []))) :=
  ⟨by decide,
   (extrair_autor_spec [[("tipo", PyVal.str "Deputado"), ("nome", PyVal.str "X")]]
     (by decide)).1⟩

/-- C5 counterexample: the claim's resolver (with the nested `autor.nome`
fallback and first-NON-NULL flat resolution) and the code disagree.  On a
nested-shape payload the claim resolves `"X"` but the code returns `None`
(it never looks inside `autor`); on a flat payload whose `nome` is the
empty string the claim resolves `""` (first non-null) but the code skips
the falsy `""` and returns `"Y"`. -/
theorem extrair_autor_counterexample :
    extractPrimaryAuthorClaim [[("autor", PyVal.dict [("nome", PyVal.str "X")])]] =
      PyVal.str "X" ∧
    extrair_autor_principal [[("autor", PyVal.dict [("nome", PyVal.str "X")])]] =
      .ok PyVal.none ∧
    extractPrimaryAuthorClaim [[("nome", PyVal.str ""), ("nomeAutor", PyVal.str "Y")]] =
      PyVal.str "" ∧
    extrair_autor_principal [[("nome", PyVal.str ""), ("nomeAutor", PyVal.str "Y")]] =
      .ok (PyVal.str "Y") :=
  ⟨rfl, rfl, rfl, rfl⟩

/-- Digit characters round-trip through `digitVal`. -/
theorem digitVal_ofNat : ∀ r < 10, digitVal (Char.ofNat (48 + r)) = some r := by decide

/-- The function `digitChar` always produces a digit, of value `k mod 10`. -/
theorem digitVal_digitChar (k : Nat) : digitVal (digitChar k) = some (k % 10) :=
  digitVal_ofNat (k % 10) (Nat.mod_lt k (by omega))

/-- Two-digit renderings parse back. -/
theorem take2_pad2 (n : Nat) (h : n < 100) (rest : List Char) :
    take2 (pad2 n ++ rest) = some (n, rest) := by
  show take2 (digitChar (n / 10) :: digitChar n :: rest) = some (n, rest)
  simp only [take2, digitVal_digitChar]
  have he : n / 10 % 10 * 10 + n % 10 = n := by omega
  rw [he]

/-- Four-digit renderings parse back. -/
theorem take4_pad4 (n : Nat) (h : n < 10000) (rest : List Char) :
    take4 (pad4 n ++ rest) = some (n, rest) := by
  show take4 (digitChar (n / 1000) :: digitChar (n / 100) :: digitChar (n / 10) ::
    digitChar n :: rest) = some (n, rest)
  simp only [take4, digitVal_digitChar]
  have he : n / 1000 % 10 * 1000 + n / 100 % 10 * 100 + n / 10 % 10 * 10 + n % 10 = n := by
    omega
  rw [he]

/-- The expected character is consumed. -/
theorem expectChar_self (c : Char) (rest : List Char) :
    expectChar c (c :: rest) = some rest := by
  simp [expectChar]

/-- Month lengths never exceed 31. -/
theorem daysInMonth_le (y m : Nat) : daysInMonth y m ≤ 31 := by
  unfold daysInMonth
  split
  · split <;> omega
  · split <;> omega

/-- The component bounds packed in `validYMD`. -/
theorem validYMD_bounds (y m d : Nat) (h : validYMD y m d = true) :
    y < 10000 ∧ m < 100 ∧ d < 100 := by
  simp only [validYMD, Bool.and_eq_true, decide_eq_true_eq] at h
  have := daysInMonth_le y m
  omega

/-- Two-digit renderings at the end of input parse back. -/
theorem take2_pad2_nil (n : Nat) (h : n < 100) : take2 (pad2 n) = some (n, []) := by
  have := take2_pad2 n h []
  rwa [List.append_nil] at this

/-- A rendered plain date parses to its components. -/
theorem parseISO_date (y m d : Nat) (h : validYMD y m d = true) :
    parseISOChars (pad4 y ++ '-' :: (pad2 m ++ '-' :: pad2 d)) =
      some ⟨y, m, d, 0, 0, 0, Option.none⟩ := by
  obtain ⟨hy, hm, hd⟩ := validYMD_bounds y m d h
  simp only [parseISOChars, take4_pad4 y hy, expectChar_self, take2_pad2 m hm,
    take2_pad2_nil d hd]
  rw [if_pos h]

/-- A rendered time without offset parses to its components. -/
theorem parseTimeAndOffset_plain (y m d h mi s : Nat)
    (hh : h ≤ 23) (hmi : mi ≤ 59) (hs : s ≤ 59) :
    parseTimeAndOffset y m d (pad2 h ++ ':' :: (pad2 mi ++ ':' :: pad2 s)) =
      some ⟨y, m, d, h, mi, s, Option.none⟩ := by
  simp only [parseTimeAndOffset, take2_pad2 h (by omega), expectChar_self,
    take2_pad2 mi (by omega), take2_pad2_nil s (by omega)]
  rw [if_pos ⟨hh, hmi, hs⟩]

/-- A rendered time with a `±HH:MM` offset parses to its components. -/
theorem parseTimeAndOffset_offset (y m d h mi s : Nat) (negOff : Bool) (oh om : Nat)
    (hh : h ≤ 23) (hmi : mi ≤ 59) (hs : s ≤ 59) (hoh : oh ≤ 23) (hom : om ≤ 59) :
    parseTimeAndOffset y m d (pad2 h ++ ':' :: (pad2 mi ++ ':' ::
        (pad2 s ++ (if negOff then '-' else '+') :: (pad2 oh ++ ':' :: pad2 om)))) =
      some ⟨y, m, d, h, mi, s,
        some ((if negOff then (-1 : Int) else 1) * (oh * 60 + om))⟩ := by
  cases negOff with
  | false =>
    simp only [if_false, Bool.false_eq_true]
    simp only [parseTimeAndOffset, take2_pad2 h (by omega), expectChar_self,
      take2_pad2 mi (by omega), take2_pad2 s (by omega)]
    rw [if_pos ⟨hh, hmi, hs⟩]
    rw [if_neg (by intro hc; exact absurd hc.1 (by decide))]
    simp only [take2_pad2 oh (by omega), expectChar_self, take2_pad2_nil om (by omega)]
    simp [hoh, hom]
  | true =>
    simp only [if_true]
    simp only [parseTimeAndOffset, take2_pad2 h (by omega), expectChar_self,
      take2_pad2 mi (by omega), take2_pad2 s (by omega)]
    rw [if_pos ⟨hh, hmi, hs⟩]
    rw [if_neg (by intro hc; exact absurd hc.1 (by decide))]
    simp only [take2_pad2 oh (by omega), expectChar_self, take2_pad2_nil om (by omega)]
    simp [hoh, hom]

/-- A rendered date followed by `T` hands the tail to the time parser. -/
theorem parseISO_datetime_aux (y m d : Nat) (h : validYMD y m d = true) (tail : List Char) :
    parseISOChars (pad4 y ++ '-' :: (pad2 m ++ '-' :: (pad2 d ++ 'T' :: tail))) =
      parseTimeAndOffset y m d tail := by
  obtain ⟨hy, hm, hd⟩ := validYMD_bounds y m d h
  simp only [parseISOChars, take4_pad4 y hy, expectChar_self, take2_pad2 m hm,
    take2_pad2 d hd]
  rw [if_pos h]
  simp

/-- C7: the date parser accepts every valid plain `YYYY-MM-DD` date and
every valid ISO-8601 timestamp with or without a `±HH:MM` zone offset,
returning the exact parsed components (hence a valid timestamp, comparable
through `Timestamp.utcSeconds`); `None`, the empty string and malformed
strings give `None`; and the two example inputs parse to comparable
timestamps with the date-only one earlier.  (The underlying
`dateutil`/`pandas` parsing is external library code modelled from the
spec.)  Totality — "never raises" — is structural: `parse_date` is a total
function into `Option`. -/
theorem parse_date_spec :
    (∀ y m d : Nat, validYMD y m d = true →
      parse_date (.str (renderDate y m d)) = some ⟨y, m, d, 0, 0, 0, Option.none⟩) ∧
    (∀ y m d h mi s : Nat, validYMD y m d = true → h ≤ 23 → mi ≤ 59 → s ≤ 59 →
      parse_date (.str (renderDateTime y m d h mi s)) =
        some ⟨y, m, d, h, mi, s, Option.none⟩) ∧
    (∀ (y m d h mi s : Nat) (negOff : Bool) (oh om : Nat), validYMD y m d = true →
      h ≤ 23 → mi ≤ 59 → s ≤ 59 → oh ≤ 23 → om ≤ 59 →
      parse_date (.str (renderDateTimeOffset y m d h mi s negOff oh om)) =
        some ⟨y, m, d, h, mi, s, some ((if negOff then (-1 : Int) else 1) * (oh * 60 + om))⟩) ∧
    (parse_date PyVal.none = Option.none ∧ parse_date (.str "") = Option.none) ∧
    (parse_date (.str "10/05/2022") = Option.none ∧
      parse_date (.str "not a date") = Option.none ∧
      parse_date (.str "2022-13-01") = Option.none ∧
      parse_date (.str "2022-02-30") = Option.none) ∧
    ((parse_date (.str "2022-05-10")).map Timestamp.utcSeconds = some 1652140800 ∧
      (parse_date (.str "2022-05-10T12:00:00-03:00")).map Timestamp.utcSeconds =
        some 1652194800 ∧ (1652140800 : Int) < 1652194800) := by
  refine ⟨?_, ?_, ?_, ⟨rfl, rfl⟩, ⟨rfl, rfl, rfl, rfl⟩, ?_⟩
  · intro y m d h
    show parseISOChars (pad4 y ++ '-' :: (pad2 m ++ '-' :: pad2 d)) = _
    exact parseISO_date y m d h
  · intro y m d h mi s hv hh hmi hs
    show parseISOChars (pad4 y ++ '-' :: (pad2 m ++ '-' :: (pad2 d ++ 'T' ::
      (pad2 h ++ ':' :: (pad2 mi ++ ':' :: pad2 s))))) = _
    rw [parseISO_datetime_aux y m d hv]
    exact parseTimeAndOffset_plain y m d h mi s hh hmi hs
  · intro y m d h mi s negOff oh om hv hh hmi hs hoh hom
    show parseISOChars (pad4 y ++ '-' :: (pad2 m ++ '-' :: (pad2 d ++ 'T' ::
      (pad2 h ++ ':' :: (pad2 mi ++ ':' ::
        (pad2 s ++ (if negOff then '-' else '+') :: (pad2 oh ++ ':' :: pad2 om))))))) = _
    rw [parseISO_datetime_aux y m d hv]
    exact parseTimeAndOffset_offset y m d h mi s negOff oh om hh hmi hs hoh hom
  · exact ⟨rfl, rfl, by decide⟩

/-- Witness for C7: the hypotheses discharged at the spec's example date
2022-05-10, both bare and with a negative three-hour offset. -/
theorem parse_date_spec_witness :
    validYMD 2022 5 10 = true ∧
    parse_date (.str (renderDate 2022 5 10)) =
      some ⟨2022, 5, 10, 0, 0, 0, Option.none⟩ ∧
    parse_date (.str (renderDateTimeOffset 2022 5 10 12 0 0 true 3 0)) =
      some ⟨2022, 5, 10, 12, 0, 0, some ((if true then (-1 : Int) else 1) * (3 * 60 + 0))⟩ :=
  ⟨by decide, parse_date_spec.1 2022 5 10 (by decide),
   parse_date_spec.2.2.1 2022 5 10 12 0 0 true 3 0 (by decide) (by decide) (by decide)
     (by decide) (by decide) (by decide)⟩
